import Mathlib

/-!
Shallow embedding of the sales-analysis pipeline of `src/analisis.py`
(class `AnalizadorVentas`) together with proofs about the claims of its
specification.

Modelling conventions:
* Numeric cells of the table are `Option ℚ` — `none` models a pandas
  null/NaN cell (`pd.to_numeric(errors=coerce)` turns every non-numeric
  cell into NaN, so cell values are numeric-or-null).
* Scalar results of pandas floating-point arithmetic are modelled by
  `PFloat`, rationals extended with IEEE-754 `nan`, `inf` and `-inf`,
  because pandas division by zero produces `±inf` for a nonzero
  numerator and `nan` for `0/0`, and `.fillna(0)` replaces only `nan`.
* `pandas.Series.sum`/`groupby(...).sum()` skip nulls and return `0` on
  an all-null column, hence aggregate sums live in plain `ℚ`.
* `sort_values` is embedded as `List.insertionSort`, a deterministic
  stable comparison sort; dates are abstracted to their month bucket
  (`FECHA` is an `Option Int` month index) since only `MES_ANIO` is
  consumed by the analyses studied here.
* `.round(n)` (numpy) and Python `round` both round half to even;
  `rhe` below implements that on `ℚ`.
-/

namespace AnalisisVentas

/-- Computable floor of a rational (`Rat.floor` is not kernel-reducible;
`q.num / q.den` with euclidean integer division agrees with `⌊q⌋`). -/
def qfloor (q : ℚ) : ℤ := q.num / (q.den : ℤ)

/-- Round half to even to the nearest integer, as numpy `.round` and
Python `round` do. -/
def rhe (q : ℚ) : ℤ :=
  if q - (qfloor q : ℚ) < 1/2 then qfloor q
  else if 1/2 < q - (qfloor q : ℚ) then qfloor q + 1
  else if qfloor q % 2 = 0 then qfloor q else qfloor q + 1

/-- `x.round(2)` of numpy / `round(x, 2)` of Python on an exact rational. -/
def round2 (q : ℚ) : ℚ := (rhe (q * 100) : ℚ) / 100

/-- `x.round(3)`. -/
def round3 (q : ℚ) : ℚ := (rhe (q * 1000) : ℚ) / 1000

/-- Rationals extended with the IEEE-754 special values produced by
pandas floating-point arithmetic. -/
inductive PFloat
  | fin (q : ℚ)
  | nan
  | inf
  | ninf
deriving DecidableEq, Repr

namespace PFloat

/-- IEEE division as performed by pandas: `x/0` is `nan` for `x = 0` and
`±inf` otherwise. -/
def pdiv : PFloat → PFloat → PFloat
  | nan, _ => nan
  | _, nan => nan
  | fin a, fin b =>
      if b ≠ 0 then fin (a / b)
      else if a = 0 then nan
      else if 0 < a then inf else ninf
  | fin _, inf => fin 0
  | fin _, ninf => fin 0
  | inf, fin b => if 0 ≤ b then inf else ninf
  | ninf, fin b => if 0 ≤ b then ninf else inf
  | inf, inf => nan
  | inf, ninf => nan
  | ninf, inf => nan
  | ninf, ninf => nan

/-- IEEE multiplication (`inf * 0 = nan`). -/
def pmul : PFloat → PFloat → PFloat
  | nan, _ => nan
  | _, nan => nan
  | fin a, fin b => fin (a * b)
  | fin a, inf => if a = 0 then nan else if 0 < a then inf else ninf
  | inf, fin b => if b = 0 then nan else if 0 < b then inf else ninf
  | fin a, ninf => if a = 0 then nan else if 0 < a then ninf else inf
  | ninf, fin b => if b = 0 then nan else if 0 < b then ninf else inf
  | inf, inf => inf
  | ninf, ninf => inf
  | inf, ninf => ninf
  | ninf, inf => ninf

/-- IEEE addition (`inf + (-inf) = nan`). -/
def padd : PFloat → PFloat → PFloat
  | nan, _ => nan
  | _, nan => nan
  | fin a, fin b => fin (a + b)
  | fin _, inf => inf
  | inf, fin _ => inf
  | fin _, ninf => ninf
  | ninf, fin _ => ninf
  | inf, inf => inf
  | ninf, ninf => ninf
  | inf, ninf => nan
  | ninf, inf => nan

/-- IEEE subtraction. -/
def psub : PFloat → PFloat → PFloat
  | nan, _ => nan
  | _, nan => nan
  | fin a, fin b => fin (a - b)
  | fin _, inf => ninf
  | inf, fin _ => inf
  | fin _, ninf => inf
  | ninf, fin _ => ninf
  | inf, inf => nan
  | ninf, ninf => nan
  | inf, ninf => inf
  | ninf, inf => ninf

/-- `.fillna(0)`: replaces only `nan`; `±inf` pass through untouched. -/
def fillna0 : PFloat → PFloat
  | nan => fin 0
  | x => x

/-- `.round(2)` leaves `nan` and `±inf` unchanged. -/
def pround2 : PFloat → PFloat
  | fin q => fin (round2 q)
  | x => x

/-- `.round(3)`. -/
def pround3 : PFloat → PFloat
  | fin q => fin (round3 q)
  | x => x

/-- IEEE `≤` against a rational scalar (`nan ≤ c` is false). -/
def leQ : PFloat → ℚ → Bool
  | fin q, c => q ≤ c
  | nan, _ => false
  | inf, _ => false
  | ninf, _ => true

/-- IEEE `>` against a rational scalar (`nan > c` is false). -/
def gtQ : PFloat → ℚ → Bool
  | fin q, c => c < q
  | nan, _ => false
  | inf, _ => true
  | ninf, _ => false

/-- IEEE `≥` against a rational scalar (`nan ≥ c` is false). -/
def geQ : PFloat → ℚ → Bool
  | fin q, c => c ≤ q
  | nan, _ => false
  | inf, _ => true
  | ninf, _ => false

/-- IEEE `≤` between two values; any comparison with `nan` is false. -/
def fle : PFloat → PFloat → Bool
  | nan, _ => false
  | _, nan => false
  | ninf, _ => true
  | _, ninf => false
  | _, inf => true
  | inf, fin _ => false
  | fin p, fin q => p ≤ q

/-- Binary maximum ignoring `nan`, as `Series.max` (skipna) does. -/
def pmax : PFloat → PFloat → PFloat
  | nan, b => b
  | a, nan => a
  | inf, _ => inf
  | _, inf => inf
  | ninf, b => b
  | a, ninf => a
  | fin p, fin q => fin (max p q)

end PFloat

/-- `Series.max()` over a column: skips `nan`, `nan` when empty/all-`nan`. -/
def seriesMax (l : List PFloat) : PFloat :=
  l.foldl PFloat.pmax PFloat.nan

/-- `Series.max()` over a plain rational column: `none` when empty. -/
def qMax (l : List ℚ) : Option ℚ :=
  l.foldl (fun acc x =>
    match acc with
    | none => some x
    | some m => some (max m x)) none

/-- `Series.sum()` over a numeric-or-null column: nulls are skipped and
the empty sum is `0`. -/
def osum (l : List (Option ℚ)) : ℚ :=
  (l.filterMap id).sum

/-- Null-propagating product, as `df['FACTURADO'] * df['PRECIO UNITARIO']`
behaves when a cell is NaN. -/
def omul : Option ℚ → Option ℚ → Option ℚ
  | some a, some b => some (a * b)
  | _, _ => none

/-- One raw sales-order line (the columns of the Excel export consumed by
the analyses; headers already stripped).  `fecha` is abstracted to an
integer month bucket. -/
structure RawRow where
  ov : String
  codigo : Option String
  nombre : Option String
  categoria : Option String
  fecha : Option Int
  cant : Option ℚ
  pesoNeto : Option ℚ
  precioUnitario : Option ℚ
  facturado : Option ℚ
  pesoTotal : Option ℚ
deriving DecidableEq, Repr

/-- A cleaned row: the raw row plus the derived `MONTO_FACTURADO` and
`MES_ANIO` columns computed by `__init__`/`_limpiar_datos`. -/
structure CRow extends RawRow where
  montoFacturado : Option ℚ
  mesAnio : Option Int
deriving DecidableEq, Repr

/-- The header-presence part of `AnalizadorVentas.__init__`, in the order
the columns are touched: `FECHA` (`pd.to_datetime`), then `FACTURADO` and
`PRECIO UNITARIO` (the `MONTO_FACTURADO` product), then `CODIGO`/`NOMBRE`
(`dropna(subset=...)`).  A missing column raises a `KeyError`; `CANT` is
only touched inside a `for col in ...: if col in self.df.columns` loop
and therefore never checked at construction time. -/
def initSchemaCheck (cols : List String) : Except String Unit :=
  if "FECHA" ∉ cols then .error "KeyError: FECHA"
  else if "FACTURADO" ∉ cols then .error "KeyError: FACTURADO"
  else if "PRECIO UNITARIO" ∉ cols then .error "KeyError: PRECIO UNITARIO"
  else if "CODIGO" ∉ cols ∨ "NOMBRE" ∉ cols then .error "KeyError: CODIGO, NOMBRE"
  else .ok ()

/-- The row-level part of `__init__` + `_limpiar_datos`:
`MONTO_FACTURADO = FACTURADO * PRECIO UNITARIO` per row (computed before
the drop), rows with a null `CODIGO` or `NOMBRE` dropped, `MES_ANIO`
derived from the parsed date.  Numeric coercion is the identity here
because cells are already numeric-or-null. -/
def limpiarDatos (rows : List RawRow) : List CRow :=
  (rows.map (fun r =>
    { toRawRow := r
      montoFacturado := omul r.facturado r.precioUnitario
      mesAnio := r.fecha })).filter
    (fun c => c.codigo.isSome && c.nombre.isSome)

/-- The cleaned dataset held by an `AnalizadorVentas` instance: the
cleaned rows plus whether the optional `CATEGORIA` column exists in the
header. -/
structure DF where
  rows : List CRow
  hasCategoria : Bool
deriving DecidableEq, Repr

/-- Builds the analyzer state from raw rows (header checks aside). -/
def mkDF (raws : List RawRow) (hasCat : Bool) : DF :=
  ⟨limpiarDatos raws, hasCat⟩

/-- The `(CODIGO, NOMBRE)` grouping key of a row; `groupby` drops rows
whose key is null (cleaning already removed those). -/
def prodKey (c : CRow) : Option (String × String) :=
  match c.codigo, c.nombre with
  | some a, some b => some (a, b)
  | _, _ => none

/-- Lexicographic order on grouping keys, as `groupby` (with its default
`sort=True`) orders the groups. -/
def keyLe (a b : String × String) : Bool :=
  match compare a.1 b.1 with
  | .lt => true
  | .eq => compare a.2 b.2 ≠ .gt
  | .gt => false

/-- The distinct keys of a column in first-occurrence order. -/
def distinctKeys {α : Type} [DecidableEq α] (l : List α) : List α :=
  l.foldl (fun acc k => if k ∈ acc then acc else acc ++ [k]) []

/-- The group keys of `groupby(['CODIGO', 'NOMBRE'])`, sorted. -/
def groupKeys (rows : List CRow) : List (String × String) :=
  List.insertionSort (fun a b => keyLe a b = true)
    (distinctKeys (rows.filterMap prodKey))

/-- One product aggregate: the per-group sums of `CANT`, `PESO TOTAL`
and `MONTO_FACTURADO` that every per-product analysis starts from. -/
structure ProductAgg where
  codigo : String
  nombre : String
  cant : ℚ
  peso : ℚ
  monto : ℚ
deriving DecidableEq, Repr

/-- The aggregate row of one `(CODIGO, NOMBRE)` group. -/
def aggFor (rows : List CRow) (k : String × String) : ProductAgg :=
  let g := rows.filter (fun c => prodKey c = some k)
  { codigo := k.1
    nombre := k.2
    cant := osum (g.map (·.cant))
    peso := osum (g.map (·.pesoTotal))
    monto := osum (g.map (·.montoFacturado)) }

/-- `df.groupby(['CODIGO','NOMBRE']).agg({... 'sum'}).reset_index()`, the
product-aggregate table shared by the ranking/Pareto/segmentation
methods (each method recomputes exactly this grouping). -/
def productAggs (rows : List CRow) : List ProductAgg :=
  (groupKeys rows).map (aggFor rows)

/-- The `(cum / total * 100).fillna(0).round(2)` cell of the Pareto
tables, with pandas semantics for a zero denominator. -/
def pctCell (c t : ℚ) : PFloat :=
  PFloat.pround2 (PFloat.fillna0 (PFloat.pmul (PFloat.pdiv (.fin c) (.fin t)) (.fin 100)))

/-- One row of a Pareto table: the product aggregate, the running
cumulative sum of the chosen metric (`cumsum`), and the rounded
`% Acumulado` / `% Individual` columns. -/
structure PRow where
  prod : ProductAgg
  acum : ℚ
  pctAcum : PFloat
  pctInd : PFloat
deriving DecidableEq, Repr

/-- The rows of a Pareto table over an already-sorted aggregate list,
carrying the running cumulative sum (`.cumsum()`). -/
def paretoRows (metric : ProductAgg → ℚ) (t : ℚ) (acc : ℚ) :
    List ProductAgg → List PRow
  | [] => []
  | p :: ps =>
      ⟨p, acc + metric p, pctCell (acc + metric p) t, pctCell (metric p) t⟩ ::
        paretoRows metric t (acc + metric p) ps

/-- The common body of `analisis_pareto` / `pareto_por_peso` /
`pareto_por_cantidad` / `pareto_por_facturacion`: group by product, sort
descending by the metric (stable), annotate with cumulative sum and the
two percentage columns. -/
def paretoTable (metric : ProductAgg → ℚ) (df : DF) : List PRow :=
  let prods := List.insertionSort (fun a b => metric b ≤ metric a) (productAggs df.rows)
  paretoRows metric ((prods.map metric).sum) 0 prods

/-- `pareto_por_peso()`. -/
def paretoPorPeso (df : DF) : List PRow := paretoTable (·.peso) df

/-- `pareto_por_cantidad()`. -/
def paretoPorCantidad (df : DF) : List PRow := paretoTable (·.cant) df

/-- `pareto_por_facturacion()`. -/
def paretoPorFacturacion (df : DF) : List PRow := paretoTable (·.monto) df

/-- The result dictionary of `analisis_pareto()`. -/
structure ParetoResult where
  totalProductos : ℕ
  productos80Count : ℕ
  porcentajeProductos80 : ℚ
  facturacion80 : ℚ
  productos20Count : ℕ
  porcentajeProductos20 : ℚ
  facturacion20 : ℚ
  dataframe : List PRow
deriving DecidableEq, Repr

/-- `analisis_pareto()`: the revenue Pareto table plus the vital/trivial
splits `productos_80 = % Acumulado <= 80` and `productos_20 = > 80`
(IEEE comparisons, so a `nan` cell lands in neither split). -/
def analisisPareto (df : DF) : ParetoResult :=
  let table := paretoTable (·.monto) df
  let p80 := table.filter (fun r => PFloat.leQ r.pctAcum 80)
  let p20 := table.filter (fun r => PFloat.gtQ r.pctAcum 80)
  { totalProductos := table.length
    productos80Count := p80.length
    porcentajeProductos80 :=
      if 0 < table.length then round2 ((p80.length : ℚ) / (table.length : ℚ) * 100) else 0
    facturacion80 := ((p80.map (·.prod.monto)).map some |> osum)
    productos20Count := p20.length
    porcentajeProductos20 :=
      if 0 < table.length then round2 ((p20.length : ℚ) / (table.length : ℚ) * 100) else 0
    facturacion20 := ((p20.map (·.prod.monto)).map some |> osum)
    dataframe := table }

/-- One row of `crecimiento_mensual()`. -/
structure MesRow where
  mes : Int
  monto : ℚ
  crecimiento : PFloat
  diferencia : PFloat
deriving DecidableEq, Repr

/-- `Series.pct_change()` of one cell: `curr / prev - 1`, `nan` on the
first row. -/
def pctChangeCell (prev : Option ℚ) (m : ℚ) : PFloat :=
  match prev with
  | none => .nan
  | some p => PFloat.psub (PFloat.pdiv (.fin m) (.fin p)) (.fin 1)

/-- `Series.diff()` of one cell: `curr - prev`, `nan` on the first row
(`crecimiento_mensual` applies no `fillna` to this column). -/
def diffCell (prev : Option ℚ) (m : ℚ) : PFloat :=
  match prev with
  | none => .nan
  | some p => .fin (m - p)

/-- Builds the `crecimiento_mensual` rows over the chronologically sorted
`(MES_ANIO, MONTO_FACTURADO-sum)` pairs, threading the previous month. -/
def crecRows (prev : Option ℚ) : List (Int × ℚ) → List MesRow
  | [] => []
  | (k, m) :: rest =>
      ⟨k, m,
        PFloat.pround2 (PFloat.fillna0 (PFloat.pmul (pctChangeCell prev m) (.fin 100))),
        diffCell prev m⟩ :: crecRows (some m) rest

/-- The chronologically sorted monthly revenue sums
(`groupby('MES_ANIO').agg(...)` then `sort_values('MES_ANIO')`; rows with
a null month are dropped by `groupby`). -/
def ventasMensuales (rows : List CRow) : List (Int × ℚ) :=
  (List.insertionSort (fun a b => a ≤ b) (distinctKeys (rows.filterMap (·.mesAnio)))).map
    (fun k => (k, osum ((rows.filter (fun c => c.mesAnio = some k)).map (·.montoFacturado))))

/-- `crecimiento_mensual()`: monthly revenue with percent change
(`.fillna(0).round(2)`) and absolute difference (no `fillna`). -/
def crecimientoMensual (df : DF) : List MesRow :=
  crecRows none (ventasMensuales df.rows)

/-- The `Prioridad` tiers of `matriz_decision()`. -/
inductive Prioridad
  | alta
  | media
  | baja
deriving DecidableEq, Repr

/-- `clasificar_prioridad`: `>= 70` high, `>= 40` medium, low otherwise
(IEEE comparisons on the index cell). -/
def clasificarPrioridad (indice : PFloat) : Prioridad :=
  if PFloat.geQ indice 70 then .alta
  else if PFloat.geQ indice 40 then .media
  else .baja

/-- One row of `matriz_decision()` (the `Recomendación` text cell, a fixed
template per tier, is omitted as pure presentation). -/
structure MatrizRow where
  prod : ProductAgg
  pesoUnitario : PFloat
  sPorUnidad : PFloat
  sPorKg : PFloat
  eficienciaFundicion : PFloat
  eficienciaManoObra : PFloat
  indiceGlobal : PFloat
  prioridad : Prioridad
deriving DecidableEq, Repr

/-- Descending order on the `Índice Global` column with `nan` placed
last, as `sort_values(..., ascending=False)` does. -/
def indiceDescLe (a b : PFloat) : Bool :=
  match a, b with
  | .nan, .nan => true
  | .nan, _ => false
  | _, .nan => true
  | x, y => PFloat.fle y x

/-- `matriz_decision()`: per-unit metrics, the two normalized efficiency
scores, the composite index and the priority tier. -/
def matrizDecision (df : DF) : List MatrizRow :=
  let prods := productAggs df.rows
  let pesoUnit := fun p : ProductAgg =>
    PFloat.pround3 (PFloat.fillna0 (PFloat.pdiv (.fin p.peso) (.fin p.cant)))
  let sPorUnid := fun p : ProductAgg =>
    PFloat.pround2 (PFloat.fillna0 (PFloat.pdiv (.fin p.monto) (.fin p.cant)))
  let sPorKg := fun p : ProductAgg =>
    PFloat.pround2 (PFloat.fillna0 (PFloat.pdiv (.fin p.monto) (.fin p.peso)))
  let maxPrecioKg := seriesMax (prods.map sPorKg)
  let efFund := fun p : ProductAgg =>
    if PFloat.gtQ maxPrecioKg 0 then
      PFloat.pround2 (PFloat.fillna0 (PFloat.pmul (PFloat.pdiv (sPorKg p) maxPrecioKg) (.fin 100)))
    else .fin 0
  let maxCant := qMax (prods.map (·.cant))
  let efMano := fun p : ProductAgg =>
    match maxCant with
    | some mc =>
        if 0 < mc then
          PFloat.pround2 (PFloat.fillna0
            (PFloat.pmul (PFloat.psub (.fin 1) (PFloat.pdiv (.fin p.cant) (.fin mc))) (.fin 100)))
        else .fin 0
    | none => .fin 0
  let rows := prods.map (fun p =>
    let indice := PFloat.pround2
      (PFloat.padd (PFloat.pmul (efFund p) (.fin (6/10))) (PFloat.pmul (efMano p) (.fin (4/10))))
    ({ prod := p
       pesoUnitario := pesoUnit p
       sPorUnidad := sPorUnid p
       sPorKg := sPorKg p
       eficienciaFundicion := efFund p
       eficienciaManoObra := efMano p
       indiceGlobal := indice
       prioridad := clasificarPrioridad indice } : MatrizRow))
  List.insertionSort (fun a b => indiceDescLe a.indiceGlobal b.indiceGlobal = true) rows

/-- The four BCG segments of `segmentacion_bcg()`. -/
inductive Segmento
  | estrellas
  | vacasLecheras
  | desafiantes
  | perros
deriving DecidableEq, Repr

/-- `Series.median()`: `none` (NaN) on an empty column, middle element
for odd length, mean of the two middle elements for even length. -/
def medianQ (l : List ℚ) : Option ℚ :=
  let s := List.insertionSort (fun a b : ℚ => a ≤ b) l
  if s.length = 0 then none
  else if s.length % 2 = 1 then some (s.getD (s.length / 2) 0)
  else some ((s.getD (s.length / 2 - 1) 0 + s.getD (s.length / 2) 0) / 2)

/-- A `value >= median` test; false when the median is NaN (empty table),
as IEEE comparisons with NaN are. -/
def altoVsMediana (v : ℚ) (m : Option ℚ) : Bool :=
  match m with
  | none => false
  | some q => q ≤ v

/-- `clasificar_bcg`: at-or-above-median (`>=`) on both axes. -/
def clasificarBcg (p : ProductAgg) (mp mf : Option ℚ) : Segmento :=
  let altoPeso := altoVsMediana p.peso mp
  let altaFacturacion := altoVsMediana p.monto mf
  if altoPeso && altaFacturacion then .estrellas
  else if !altoPeso && altaFacturacion then .vacasLecheras
  else if altoPeso && !altaFacturacion then .desafiantes
  else .perros

/-- One row of `segmentacion_bcg()` (the `Estrategia` text cell, a fixed
template per segment, is omitted as pure presentation). -/
structure BcgRow where
  prod : ProductAgg
  segmento : Segmento
  sPorKg : PFloat
deriving DecidableEq, Repr

/-- The fixed output priority of the segments
(`{'Vacas Lecheras': 1, 'Estrellas': 2, 'Desafiantes': 3, 'Perros': 4}`). -/
def ordenSegmento : Segmento → ℕ
  | .vacasLecheras => 1
  | .estrellas => 2
  | .desafiantes => 3
  | .perros => 4

/-- `segmentacion_bcg()`: median split on weight and revenue, `S/ por Kg`
ratio, rows sorted by the fixed segment order. -/
def segmentacionBcg (df : DF) : List BcgRow :=
  let prods := productAggs df.rows
  let mp := medianQ (prods.map (·.peso))
  let mf := medianQ (prods.map (·.monto))
  let rows := prods.map (fun p =>
    ({ prod := p
       segmento := clasificarBcg p mp mf
       sPorKg := PFloat.pround2 (PFloat.fillna0 (PFloat.pdiv (.fin p.monto) (.fin p.peso))) } : BcgRow))
  List.insertionSort (fun a b => ordenSegmento a.segmento ≤ ordenSegmento b.segmento) rows

/-- One row of `analisis_categorias()`. -/
structure CatRow where
  categoria : String
  monto : ℚ
  cant : ℚ
  peso : ℚ
  ordenes : ℕ
  pctFacturacion : PFloat
deriving DecidableEq, Repr

/-- `analisis_categorias()`: empty table when the `CATEGORIA` column is
absent; otherwise per-category sums, distinct-order counts, and the
percentage share of revenue (explicitly guarded when the total is 0),
sorted descending by revenue. -/
def analisisCategorias (df : DF) : List CatRow :=
  if df.hasCategoria = false then []
  else
    let keys := List.insertionSort (fun a b : String => compare a b ≠ .gt)
      (distinctKeys (df.rows.filterMap (·.categoria)))
    let base := keys.map (fun k =>
      let g := df.rows.filter (fun c => c.categoria = some k)
      (k, osum (g.map (·.montoFacturado)), osum (g.map (·.cant)),
        osum (g.map (·.pesoTotal)), (distinctKeys (g.map (·.ov))).length))
    let total := (base.map (fun b => b.2.1)).sum
    let rows := base.map (fun b =>
      ({ categoria := b.1
         monto := b.2.1
         cant := b.2.2.1
         peso := b.2.2.2.1
         ordenes := b.2.2.2.2
         pctFacturacion :=
           if 0 < total then
             PFloat.pround2 (PFloat.fillna0 (PFloat.pmul (PFloat.pdiv (.fin b.2.1) (.fin total)) (.fin 100)))
           else .fin 0 } : CatRow))
    List.insertionSort (fun a b => a.monto ≥ b.monto) rows

/-- Running cumulative sums (`Series.cumsum()`) starting from `acc`. -/
def cumsumFrom (acc : ℚ) : List ℚ → List ℚ
  | [] => []
  | x :: xs => (acc + x) :: cumsumFrom (acc + x) xs

/-- A raw order line with the given product code/name, quantity, total
weight, unit price and invoiced units (the fields the analyses read). -/
def mkRaw (cod nom : String) (cant peso precio fact : ℚ) : RawRow :=
  { ov := "1"
    codigo := some cod
    nombre := some nom
    categoria := none
    fecha := some 0
    cant := some cant
    pesoNeto := none
    precioUnitario := some precio
    facturado := some fact
    pesoTotal := some peso }

/-- A raw order line in the given month bucket with the given unit price
and invoiced units. -/
def mkRawMes (mes : Int) (precio fact : ℚ) : RawRow :=
  { ov := "1"
    codigo := some "A"
    nombre := some "PA"
    categoria := none
    fecha := some mes
    cant := some 1
    pesoNeto := none
    precioUnitario := some precio
    facturado := some fact
    pesoTotal := some 1 }

/-- The three-row example dataset of the specification:
(A, qty 2, weight 10, price 5, invoiced 2), (A, qty 1, weight 5, price 5,
invoiced 1), (B, qty 1, weight 1, price 100, invoiced 1). -/
def ejemploTresFilas : DF :=
  mkDF [mkRaw "A" "PA" 2 10 5 2, mkRaw "A" "PA" 1 5 5 1, mkRaw "B" "PB" 1 1 100 1] true

/-- A dataset whose single product has total weight `0` and positive
invoiced amount `100`. -/
def pesoCeroMontoPositivo : DF := mkDF [mkRaw "A" "PA" 1 0 100 1] true

/-- Two months with invoiced amounts 100 and then 150. -/
def dosMeses : DF := mkDF [mkRawMes 0 100 1, mkRawMes 1 150 1] true

/-- A dataset containing a product with a negative invoiced amount
(unit price `-50`). -/
def montoNegativo : DF := mkDF [mkRaw "A" "PA" 1 1 100 1, mkRaw "B" "PB" 1 1 (-50) 1] true

/-- The full header set of the export. -/
def colsFull : List String :=
  ["OV", "CLIENTE", "CODIGO", "NOMBRE", "CATEGORIA", "FECHA", "CANT",
   "PESO NETO", "PRECIO UNITARIO", "FACTURADO", "PESO TOTAL"]

/-- The header set with the quantity column `CANT` entirely absent. -/
def colsSinCant : List String :=
  ["OV", "CLIENTE", "CODIGO", "NOMBRE", "CATEGORIA", "FECHA",
   "PESO NETO", "PRECIO UNITARIO", "FACTURADO", "PESO TOTAL"]

/-- A dataset whose only row has a null product code, so that cleaning
drops every row. -/
def filaSinCodigo : List RawRow :=
  [{ mkRaw "X" "PA" 1 1 5 1 with codigo := none }]

/-- A single-product dataset: its weight and revenue are exactly the two
medians of `segmentacion_bcg`. -/
def unProducto : DF := mkDF [mkRaw "A" "PA" 1 2 10 1] true

/-- IEEE `≤` as a relation, for monotonicity statements about table
columns. -/
def PFle (a b : PFloat) : Prop := PFloat.fle a b = true

/-- The specified shape of a `% Acumulado` column with grand total
`total`: monotonically non-decreasing, ending at `100` when the total is
positive, all zeros when the total is zero. -/
def ParetoColOk (col : List PFloat) (total : ℚ) : Prop :=
  List.Chain' PFle col ∧
  (0 < total → col.getLast? = some (.fin 100)) ∧
  (total = 0 → ∀ x ∈ col, x = .fin 0)

/-- The cleaned form of the first example row
`mkRaw "A" "PA" 2 10 5 2` (invoiced amount `2 × 5 = 10`). -/
def cleanedA : CRow :=
  { toRawRow := mkRaw "A" "PA" 2 10 5 2
    montoFacturado := some 10
    mesAnio := some 0 }

unseal Rat.add Rat.mul Rat.inv Rat.sub

theorem qfloor_eq_floor (q : ℚ) : qfloor q = ⌊q⌋ := (Rat.floor_def).symm

theorem rhe_lower (q : ℚ) : qfloor q ≤ rhe q := by
  unfold rhe
  split_ifs <;> omega

theorem rhe_upper (q : ℚ) : rhe q ≤ qfloor q + 1 := by
  unfold rhe
  split_ifs <;> omega

theorem rhe_mono {q r : ℚ} (h : q ≤ r) : rhe q ≤ rhe r := by
  have hf : qfloor q ≤ qfloor r := by
    rw [qfloor_eq_floor, qfloor_eq_floor]; exact Int.floor_mono h
  rcases lt_or_eq_of_le hf with hlt | heq
  · calc rhe q ≤ qfloor q + 1 := rhe_upper q
      _ ≤ qfloor r := hlt
      _ ≤ rhe r := rhe_lower r
  · -- same integer part: compare the fractional parts
    have hfr : q - (qfloor r : ℚ) ≤ r - (qfloor r : ℚ) := by linarith
    unfold rhe
    rw [heq]
    split_ifs <;> first | omega | linarith

theorem round2_mono {q r : ℚ} (h : q ≤ r) : round2 q ≤ round2 r := by
  unfold round2
  have h1 : rhe (q * 100) ≤ rhe (r * 100) := rhe_mono (by linarith)
  have h2 : ((rhe (q * 100) : ℚ)) ≤ (rhe (r * 100) : ℚ) := by exact_mod_cast h1
  linarith

theorem pctCell_of_pos {t : ℚ} (ht : 0 < t) (a : ℚ) :
    pctCell a t = .fin (round2 (a / t * 100)) := by
  simp [pctCell, PFloat.pdiv, PFloat.pmul, PFloat.fillna0, PFloat.pround2, ne_of_gt ht]

theorem pctCell_mono {t : ℚ} (ht : 0 < t) {a b : ℚ} (hab : a ≤ b) :
    PFle (pctCell a t) (pctCell b t) := by
  rw [pctCell_of_pos ht, pctCell_of_pos ht]
  have h1 : a / t ≤ b / t := div_le_div_of_nonneg_right hab (le_of_lt ht)
  have h2 : a / t * 100 ≤ b / t * 100 := by linarith
  simpa [PFle, PFloat.fle] using round2_mono h2

theorem pctCell_total (t : ℚ) (ht : 0 < t) : pctCell t t = .fin 100 := by
  rw [pctCell_of_pos ht, div_self (ne_of_gt ht)]
  norm_num
  decide

theorem pctCell_zero : pctCell 0 0 = .fin 0 := by decide

theorem cumsumFrom_chain (l : List ℚ) (h : ∀ x ∈ l, 0 ≤ x) (acc : ℚ) :
    List.Chain' (· ≤ ·) (cumsumFrom acc l) := by
  induction l generalizing acc with
  | nil => simp [cumsumFrom]
  | cons x xs ih =>
      rw [cumsumFrom, List.chain'_cons']
      refine ⟨?_, ih (fun y hy => h y (List.mem_cons_of_mem _ hy)) (acc + x)⟩
      intro y hy
      cases xs with
      | nil => simp [cumsumFrom] at hy
      | cons z zs =>
          simp only [cumsumFrom, List.head?_cons, Option.mem_def, Option.some.injEq] at hy
          have hz : 0 ≤ z := h z (by simp)
          linarith [hy]

theorem cumsumFrom_getLast (l : List ℚ) :
    ∀ acc : ℚ, l ≠ [] → (cumsumFrom acc l).getLast? = some (acc + l.sum) := by
  induction l with
  | nil => intro acc h; exact absurd rfl h
  | cons x xs ih =>
      intro acc _
      cases xs with
      | nil => simp [cumsumFrom]
      | cons z zs =>
          have htail := ih (acc + x) (by simp)
          rw [cumsumFrom]
          have hcons : cumsumFrom (acc + x) (z :: zs) =
              (acc + x + z) :: cumsumFrom (acc + x + z) zs := rfl
          rw [hcons, List.getLast?_cons_cons, ← hcons, htail]
          congr 1
          simp only [List.sum_cons]
          ring

theorem sum_zero_of_nonneg {l : List ℚ} (h0 : ∀ x ∈ l, 0 ≤ x) (hs : l.sum = 0) :
    ∀ x ∈ l, x = 0 := by
  induction l with
  | nil => simp
  | cons x xs ih =>
      have hx : 0 ≤ x := h0 x (by simp)
      have hxs : 0 ≤ xs.sum := List.sum_nonneg (fun y hy => h0 y (List.mem_cons_of_mem _ hy))
      rw [List.sum_cons] at hs
      have hx0 : x = 0 := by linarith
      have hs0 : xs.sum = 0 := by linarith
      intro y hy
      rcases List.mem_cons.mp hy with rfl | hy
      · exact hx0
      · exact ih (fun z hz => h0 z (List.mem_cons_of_mem _ hz)) hs0 y hy

theorem cumsumFrom_all_zero {l : List ℚ} (h : ∀ x ∈ l, x = 0) :
    ∀ a ∈ cumsumFrom 0 l, a = 0 := by
  have key : ∀ (l : List ℚ) (acc : ℚ), acc = 0 → (∀ x ∈ l, x = 0) →
      ∀ a ∈ cumsumFrom acc l, a = 0 := by
    intro l
    induction l with
    | nil => intro acc _ _ a ha; simp [cumsumFrom] at ha
    | cons x xs ih =>
        intro acc hacc hz a ha
        have hx : x = 0 := hz x (by simp)
        rw [cumsumFrom] at ha
        rcases List.mem_cons.mp ha with rfl | ha
        · rw [hacc, hx]; ring
        · exact ih (acc + x) (by rw [hacc, hx]; ring)
            (fun z hz2 => hz z (List.mem_cons_of_mem _ hz2)) a ha
  exact key l 0 rfl h

theorem chain_of_all_eq {α : Type} {R : α → α → Prop} {c : α} (hc : R c c) :
    ∀ {l : List α}, (∀ x ∈ l, x = c) → List.Chain' R l := by
  intro l
  induction l with
  | nil => intro _; simp
  | cons x xs ih =>
      intro h
      rw [List.chain'_cons']
      refine ⟨?_, ih (fun y hy => h y (List.mem_cons_of_mem _ hy))⟩
      intro y hy
      have hx : x = c := h x (by simp)
      have hy2 : y = c := by
        cases xs with
        | nil => simp at hy
        | cons z zs =>
            simp only [List.head?_cons, Option.mem_def, Option.some.injEq] at hy
            exact hy ▸ h z (by simp)
      rw [hx, hy2]
      exact hc

theorem paretoRows_map_pctAcum (m : ProductAgg → ℚ) (t : ℚ) :
    ∀ (l : List ProductAgg) (acc : ℚ),
      (paretoRows m t acc l).map (·.pctAcum) =
        (cumsumFrom acc (l.map m)).map (fun a => pctCell a t) := by
  intro l
  induction l with
  | nil => intro acc; simp [paretoRows, cumsumFrom]
  | cons p ps ih =>
      intro acc
      simp only [paretoRows, cumsumFrom, List.map_cons]
      rw [ih (acc + m p)]

theorem paretoTable_props (m : ProductAgg → ℚ) (df : DF)
    (h : ∀ p ∈ productAggs df.rows, 0 ≤ m p) :
    ParetoColOk ((paretoTable m df).map (·.pctAcum))
      (((productAggs df.rows).map m).sum) := by
  have hperm : ((List.insertionSort (fun a b => m b ≤ m a) (productAggs df.rows)).map m).Perm
      ((productAggs df.rows).map m) :=
    (List.perm_insertionSort _ _).map m
  have hsum : ((List.insertionSort (fun a b => m b ≤ m a) (productAggs df.rows)).map m).sum =
      ((productAggs df.rows).map m).sum := hperm.sum_eq
  have hvals : ∀ v ∈ (List.insertionSort (fun a b => m b ≤ m a) (productAggs df.rows)).map m,
      0 ≤ v := by
    intro v hv
    rcases List.mem_map.mp hv with ⟨p, hp, rfl⟩
    exact h p ((List.mem_insertionSort _).mp hp)
  have hcol : (paretoTable m df).map (·.pctAcum) =
      (cumsumFrom 0 ((List.insertionSort (fun a b => m b ≤ m a) (productAggs df.rows)).map m)).map
        (fun a => pctCell a
          (((List.insertionSort (fun a b => m b ≤ m a) (productAggs df.rows)).map m).sum)) := by
    rw [paretoTable]
    exact paretoRows_map_pctAcum m _ _ 0
  rcases lt_or_eq_of_le (List.sum_nonneg hvals) with hpos | hzero
  · -- positive grand total
    refine ⟨?_, ?_, ?_⟩
    · rw [hcol, List.chain'_map]
      exact (cumsumFrom_chain _ hvals 0).imp (fun a b hab => pctCell_mono hpos hab)
    · intro _
      have hne : (List.insertionSort (fun a b => m b ≤ m a) (productAggs df.rows)).map m ≠ [] := by
        intro he
        rw [he] at hpos
        simp at hpos
      rw [hcol, List.getLast?_map, cumsumFrom_getLast _ 0 hne]
      show some (pctCell _ _) = _
      rw [zero_add, pctCell_total _ hpos]
    · intro h0
      rw [← hsum] at h0
      exact absurd h0 (ne_of_gt hpos)
  · -- zero grand total: every value is zero
    have hzero2 : ((List.insertionSort (fun a b => m b ≤ m a) (productAggs df.rows)).map m).sum = 0 :=
      hzero.symm
    have hallz : ∀ v ∈ (List.insertionSort (fun a b => m b ≤ m a) (productAggs df.rows)).map m,
        v = 0 := sum_zero_of_nonneg hvals hzero2
    have hcells : ∀ x ∈ (paretoTable m df).map (·.pctAcum), x = .fin 0 := by
      intro x hx
      rw [hcol] at hx
      rcases List.mem_map.mp hx with ⟨a, ha, rfl⟩
      have ha0 : a = 0 := cumsumFrom_all_zero hallz a ha
      rw [ha0, hzero2]
      exact pctCell_zero
    refine ⟨?_, ?_, fun _ => hcells⟩
    · exact chain_of_all_eq (show PFle (.fin 0) (.fin 0) from rfl) hcells
    · intro hpos
      rw [← hsum] at hpos
      exact absurd hzero2 (ne_of_gt hpos)

theorem bcg_particion (l : List BcgRow) :
    (l.filter (fun r => r.segmento = .vacasLecheras)).length +
    (l.filter (fun r => r.segmento = .estrellas)).length +
    (l.filter (fun r => r.segmento = .desafiantes)).length +
    (l.filter (fun r => r.segmento = .perros)).length = l.length := by
  induction l with
  | nil => simp
  | cons x xs ih =>
      cases hx : x.segmento <;>
        simp only [List.filter_cons, hx, List.length_cons] <;>
        simp <;> omega

/-- C1 (counterexample): on the three-row example dataset the revenue
Pareto reports `productos_80_count = 0`, not `1` as claimed — B's
cumulative share is 86.96 %, which fails the `% Acumulado <= 80` filter,
so not even the top product is counted among the "vital few". -/
theorem pareto_ejemplo_vital_count_cero :
    (analisisPareto ejemploTresFilas).productos80Count = 0 ∧
    (analisisPareto ejemploTresFilas).productos80Count ≠ 1 := by
  constructor
  · decide
  · decide

/-- C1 (amended): on the three-row example dataset, the product
aggregates are A = (quantity 3, weight 15, amount 15) and
B = (quantity 1, weight 1, amount 100), the grand total is 115, the
revenue Pareto ranks B first with cumulative 86.96 % and A second with
cumulative 100 %, and — because 86.96 % already exceeds the 80 %
threshold — the `% Acumulado <= 80` filter is empty:
`productos_80_count = 0` and there is no vital product. -/
theorem pareto_ejemplo_amended :
    (productAggs ejemploTresFilas.rows).map (fun p => (p.codigo, p.cant, p.peso, p.monto)) =
      [("A", 3, 15, 15), ("B", 1, 1, 100)] ∧
    ((productAggs ejemploTresFilas.rows).map (·.monto)).sum = 115 ∧
    ((analisisPareto ejemploTresFilas).dataframe).map (fun r => (r.prod.codigo, r.pctAcum)) =
      [("B", .fin (8696/100)), ("A", .fin 100)] ∧
    (analisisPareto ejemploTresFilas).totalProductos = 2 ∧
    (analisisPareto ejemploTresFilas).productos80Count = 0 ∧
    ((analisisPareto ejemploTresFilas).dataframe).filter
      (fun r => PFloat.leQ r.pctAcum 80) = [] := by
  refine ⟨by decide, by decide, by decide, by decide, by decide, by decide⟩

/-- C2 (code bug): for a product with total weight 0 and positive
invoiced amount 100, both `matriz_decision` and `segmentacion_bcg`
produce `S/ por Kg = +inf`, not `0`: pandas `100 / 0` is `+inf` and
`.fillna(0)` replaces only NaN, so the infinity reaches the output
table, contradicting the specified division-by-zero policy. -/
theorem precio_por_kg_peso_cero_es_inf :
    (matrizDecision pesoCeroMontoPositivo).map (·.sPorKg) = [PFloat.inf] ∧
    (segmentacionBcg pesoCeroMontoPositivo).map (·.sPorKg) = [PFloat.inf] ∧
    PFloat.inf ≠ PFloat.fin 0 := by
  refine ⟨by decide, by decide, by decide⟩

/-- C3 (counterexample): for the two-month series 100 then 150,
`crecimiento_mensual` leaves the first row's `Diferencia $` cell as NaN
(`Series.diff()` gets no `fillna`), not 0 as claimed; the growth column
is `[0, 50]` as claimed. -/
theorem primer_mes_diferencia_nan :
    ((crecimientoMensual dosMeses).map (fun r => (r.monto, r.crecimiento, r.diferencia))) =
      [(100, .fin 0, .nan), (150, .fin 50, .fin 50)] ∧
    PFloat.nan ≠ PFloat.fin 0 := by
  refine ⟨by decide, by decide⟩

/-- C3 (amended): for every non-empty monthly series the first row of
`crecimiento_mensual` has growth 0 (the `pct_change` NaN is zeroed by
`fillna(0)`) but its absolute difference is NaN/null (no `fillna` on the
`diff` column); for the two-month series 100 then 150 the second row's
growth is 50.00. -/
theorem crecimiento_primer_mes_amended (df : DF)
    (h : crecimientoMensual df ≠ []) :
    ((crecimientoMensual df).head?.map (fun r => (r.crecimiento, r.diferencia))) =
      some (.fin 0, .nan) ∧
    (crecimientoMensual dosMeses).map (·.crecimiento) = [.fin 0, .fin 50] := by
  constructor
  · unfold crecimientoMensual at h ⊢
    cases hv : ventasMensuales df.rows with
    | nil => rw [hv] at h; exact absurd rfl h
    | cons km rest =>
        obtain ⟨k, m⟩ := km
        show some _ = _
        simp only [crecRows, pctChangeCell, diffCell, PFloat.pmul, PFloat.fillna0,
          PFloat.pround2, Option.map_some]
        have : round2 0 = 0 := by decide
        rw [this]
  · decide

/-- C3 (witness): the amended first-month fact instantiated on the
concrete two-month series. -/
theorem crecimiento_primer_mes_amended_witness :
    ((crecimientoMensual dosMeses).head?.map (fun r => (r.crecimiento, r.diferencia))) =
      some (.fin 0, .nan) ∧
    (crecimientoMensual dosMeses).map (·.crecimiento) = [.fin 0, .fin 50] :=
  crecimiento_primer_mes_amended dosMeses (by decide)

/-- C4 (counterexample): a header set missing only the quantity column
`CANT` does not fail at construction — `__init__` never touches `CANT`
outside a guarded loop — so the claim that every structurally required
column (including quantity) is checked at construction is false. -/
theorem schema_sin_cant_construye :
    "CANT" ∉ colsSinCant ∧ initSchemaCheck colsSinCant = .ok () := by
  refine ⟨by decide, rfl⟩

/-- C4 (amended): construction fails (with a `KeyError`, there is no
custom `SchemaError` type in the code) exactly when one of `FECHA`,
`FACTURADO`, `PRECIO UNITARIO`, `CODIGO`, `NOMBRE` is absent from the
header set, checked in that order; a missing `CANT` column alone does
not make construction fail. -/
theorem schema_check_amended (cols : List String) :
    ("FECHA" ∉ cols → initSchemaCheck cols = .error "KeyError: FECHA") ∧
    ("FECHA" ∈ cols → "FACTURADO" ∉ cols →
      initSchemaCheck cols = .error "KeyError: FACTURADO") ∧
    ("FECHA" ∈ cols → "FACTURADO" ∈ cols → "PRECIO UNITARIO" ∉ cols →
      initSchemaCheck cols = .error "KeyError: PRECIO UNITARIO") ∧
    ("FECHA" ∈ cols → "FACTURADO" ∈ cols → "PRECIO UNITARIO" ∈ cols →
      ("CODIGO" ∉ cols ∨ "NOMBRE" ∉ cols) →
      initSchemaCheck cols = .error "KeyError: CODIGO, NOMBRE") ∧
    ("FECHA" ∈ cols → "FACTURADO" ∈ cols → "PRECIO UNITARIO" ∈ cols →
      "CODIGO" ∈ cols → "NOMBRE" ∈ cols → initSchemaCheck cols = .ok ()) := by
  refine ⟨?_, ?_, ?_, ?_, ?_⟩
  · intro h1
    simp [initSchemaCheck, h1]
  · intro h1 h2
    simp [initSchemaCheck, h1, h2]
  · intro h1 h2 h3
    simp [initSchemaCheck, h1, h2, h3]
  · intro h1 h2 h3 h4
    simp [initSchemaCheck, h1, h2, h3, h4]
  · intro h1 h2 h3 h4 h5
    simp [initSchemaCheck, h1, h2, h3, h4, h5]

/-- C4 (witness): the amended schema rule instantiated on concrete
headers — the full header set constructs, and dropping `FECHA` fails. -/
theorem schema_check_amended_witness :
    initSchemaCheck colsFull = .ok () ∧
    initSchemaCheck (colsFull.filter (· ≠ "FECHA")) = .error "KeyError: FECHA" := by
  constructor
  · exact (schema_check_amended colsFull).2.2.2.2 (by decide) (by decide) (by decide)
      (by decide) (by decide)
  · exact (schema_check_amended (colsFull.filter (· ≠ "FECHA"))).1 (by decide)

/-- C5 (counterexample): when every row is dropped during cleaning (here
the only row has a null product code), no error of any kind is raised —
there is no `EmptyDatasetError` in the code — and the analyses proceed,
producing metrics over the empty dataset. -/
theorem limpieza_vacia_no_falla :
    limpiarDatos filaSinCodigo = [] ∧
    (analisisPareto (mkDF filaSinCodigo true)).totalProductos = 0 ∧
    (analisisPareto (mkDF filaSinCodigo true)).dataframe = [] := by
  refine ⟨by decide, by decide, by decide⟩

/-- C5 (amended): when cleaning drops every row the pipeline does not
fail; construction succeeds with an empty cleaned dataset and every
analysis runs and returns an empty/zero result. -/
theorem limpieza_vacia_amended (raws : List RawRow) (hasCat : Bool)
    (h : limpiarDatos raws = []) :
    (analisisPareto (mkDF raws hasCat)).totalProductos = 0 ∧
    (analisisPareto (mkDF raws hasCat)).dataframe = [] ∧
    crecimientoMensual (mkDF raws hasCat) = [] ∧
    segmentacionBcg (mkDF raws hasCat) = [] := by
  simp only [mkDF, h]
  exact ⟨rfl, rfl, rfl, rfl⟩

/-- C5 (witness): the amended behaviour on the concrete dataset whose
only row has a null product code. -/
theorem limpieza_vacia_amended_witness :
    (analisisPareto (mkDF filaSinCodigo true)).totalProductos = 0 ∧
    (analisisPareto (mkDF filaSinCodigo true)).dataframe = [] ∧
    crecimientoMensual (mkDF filaSinCodigo true) = [] ∧
    segmentacionBcg (mkDF filaSinCodigo true) = [] :=
  limpieza_vacia_amended filaSinCodigo true (by decide)

/-- C6 (confirmed): every cleaned row satisfies
`MONTO_FACTURADO = FACTURADO × PRECIO UNITARIO` exactly (null when either
operand is null, via the null-propagating product), and its product code
and product name are non-null. -/
theorem filas_limpias_invariante (raws : List RawRow) :
    ∀ c ∈ limpiarDatos raws,
      c.montoFacturado = omul c.facturado c.precioUnitario ∧
      c.codigo ≠ none ∧ c.nombre ≠ none := by
  intro c hc
  unfold limpiarDatos at hc
  rw [List.mem_filter] at hc
  obtain ⟨hmem, hpred⟩ := hc
  rcases List.mem_map.mp hmem with ⟨r, _, rfl⟩
  rw [Bool.and_eq_true, Option.isSome_iff_ne_none, Option.isSome_iff_ne_none] at hpred
  exact ⟨rfl, hpred.1, hpred.2⟩

/-- C6 (witness): the invariant instantiated on the cleaned form of the
concrete row `mkRaw "A" "PA" 2 10 5 2`. -/
theorem filas_limpias_invariante_witness :
    cleanedA.montoFacturado = omul cleanedA.facturado cleanedA.precioUnitario ∧
    cleanedA.codigo ≠ none ∧ cleanedA.nombre ≠ none :=
  filas_limpias_invariante [mkRaw "A" "PA" 2 10 5 2] cleanedA (by decide)

/-- C7 (counterexample): with a product of negative invoiced amount
(price −50), the revenue Pareto's `% Acumulado` column is `[200, 100]`,
which is strictly decreasing, so the cumulative column is not
monotonically non-decreasing for every dataset. -/
theorem pareto_acumulado_no_monotono :
    ((analisisPareto montoNegativo).dataframe).map (·.pctAcum) =
      [.fin 200, .fin 100] ∧
    ¬ List.Chain' PFle (((analisisPareto montoNegativo).dataframe).map (·.pctAcum)) := by
  constructor
  · decide
  · intro hch
    have h1 : ((analisisPareto montoNegativo).dataframe).map (·.pctAcum) =
        [.fin 200, .fin 100] := by decide
    rw [h1] at hch
    have h2 : PFle (.fin 200) (.fin 100) := List.chain'_cons.mp hch |>.1
    unfold PFle at h2
    exact absurd h2 (by decide)

/-- C7 (amended): for every dataset all of whose product aggregates have
non-negative metric values (as in real sales data), each of the four
Pareto tables (revenue in `analisis_pareto` and `pareto_por_facturacion`,
weight in `pareto_por_peso`, quantity in `pareto_por_cantidad`) has a
monotonically non-decreasing `% Acumulado` column whose last entry is
exactly 100 when the grand total is positive, and all of whose entries
are 0 when the grand total is zero. -/
theorem pareto_acumulado_amended (df : DF)
    (h : ∀ p ∈ productAggs df.rows, 0 ≤ p.cant ∧ 0 ≤ p.peso ∧ 0 ≤ p.monto) :
    ParetoColOk (((analisisPareto df).dataframe).map (·.pctAcum))
      (((productAggs df.rows).map (·.monto)).sum) ∧
    ParetoColOk ((paretoPorPeso df).map (·.pctAcum))
      (((productAggs df.rows).map (·.peso)).sum) ∧
    ParetoColOk ((paretoPorCantidad df).map (·.pctAcum))
      (((productAggs df.rows).map (·.cant)).sum) ∧
    ParetoColOk ((paretoPorFacturacion df).map (·.pctAcum))
      (((productAggs df.rows).map (·.monto)).sum) := by
  refine ⟨?_, ?_, ?_, ?_⟩
  · exact paretoTable_props (·.monto) df (fun p hp => (h p hp).2.2)
  · exact paretoTable_props (·.peso) df (fun p hp => (h p hp).2.1)
  · exact paretoTable_props (·.cant) df (fun p hp => (h p hp).1)
  · exact paretoTable_props (·.monto) df (fun p hp => (h p hp).2.2)

/-- C7 (witness): the amended cumulative-column property instantiated on
the three-row example dataset (grand revenue total 115 > 0). -/
theorem pareto_acumulado_amended_witness :
    ParetoColOk (((analisisPareto ejemploTresFilas).dataframe).map (·.pctAcum))
      (((productAggs ejemploTresFilas.rows).map (·.monto)).sum) :=
  (pareto_acumulado_amended ejemploTresFilas (by decide)).1

/-- C9 (confirmed): `segmentacion_bcg` partitions the products — the four
quadrant counts sum to the product count — orders the output rows by the
fixed priority Cash cow (Vacas Lecheras), Star (Estrellas), Challenger
(Desafiantes), Dog (Perros), uses an at-or-above-median (`>=`) test on
each axis (a product exactly at the weight median counts as
high-weight), and classifies a product at both medians as a Star. -/
theorem bcg_segmentacion_correcta (df : DF) :
    (((segmentacionBcg df).filter (fun r => r.segmento = .vacasLecheras)).length +
      ((segmentacionBcg df).filter (fun r => r.segmento = .estrellas)).length +
      ((segmentacionBcg df).filter (fun r => r.segmento = .desafiantes)).length +
      ((segmentacionBcg df).filter (fun r => r.segmento = .perros)).length =
        (productAggs df.rows).length) ∧
    List.Sorted (fun a b => ordenSegmento a.segmento ≤ ordenSegmento b.segmento)
      (segmentacionBcg df) ∧
    (∀ mp, medianQ ((productAggs df.rows).map (·.peso)) = some mp →
      ∀ p ∈ productAggs df.rows, p.peso = mp →
        altoVsMediana p.peso (medianQ ((productAggs df.rows).map (·.peso))) = true) ∧
    (∀ mp mf, medianQ ((productAggs df.rows).map (·.peso)) = some mp →
      medianQ ((productAggs df.rows).map (·.monto)) = some mf →
      ∀ p ∈ productAggs df.rows, p.peso = mp → p.monto = mf →
        clasificarBcg p (medianQ ((productAggs df.rows).map (·.peso)))
          (medianQ ((productAggs df.rows).map (·.monto))) = .estrellas) := by
  refine ⟨?_, ?_, ?_, ?_⟩
  · have hpart := bcg_particion (segmentacionBcg df)
    rw [hpart]
    unfold segmentacionBcg
    rw [List.length_insertionSort, List.length_map]
  · unfold segmentacionBcg
    haveI : IsTotal BcgRow (fun a b => ordenSegmento a.segmento ≤ ordenSegmento b.segmento) :=
      ⟨fun a b => Nat.le_total _ _⟩
    haveI : IsTrans BcgRow (fun a b => ordenSegmento a.segmento ≤ ordenSegmento b.segmento) :=
      ⟨fun _ _ _ hab hbc => le_trans hab hbc⟩
    exact List.sorted_insertionSort _ _
  · intro mp hmp p _ hpeso
    rw [hmp]
    simp [altoVsMediana, hpeso]
  · intro mp mf hmp hmf p _ hpeso hmonto
    rw [hmp, hmf]
    simp [clasificarBcg, altoVsMediana, hpeso, hmonto]

/-- C9 (witness): on the single-product dataset the product sits exactly
at both medians and the classifier returns Star. -/
theorem bcg_segmentacion_correcta_witness :
    clasificarBcg ⟨"A", "PA", 1, 2, 10⟩
      (medianQ ((productAggs unProducto.rows).map (·.peso)))
      (medianQ ((productAggs unProducto.rows).map (·.monto))) = .estrellas :=
  (bcg_segmentacion_correcta unProducto).2.2.2 2 10 (by decide) (by decide)
    ⟨"A", "PA", 1, 2, 10⟩ (by decide) (by decide) (by decide)

/-- C10 (confirmed): when the `CATEGORIA` column is absent from the
header, `analisis_categorias` returns an empty table (no error is
raised — the embedding is total), while every other analysis is
unaffected by the flag and remains available. -/
theorem categorias_sin_columna_vacia (rows : List CRow) :
    analisisCategorias ⟨rows, false⟩ = [] ∧
    analisisPareto ⟨rows, false⟩ = analisisPareto ⟨rows, true⟩ ∧
    crecimientoMensual ⟨rows, false⟩ = crecimientoMensual ⟨rows, true⟩ ∧
    segmentacionBcg ⟨rows, false⟩ = segmentacionBcg ⟨rows, true⟩ ∧
    matrizDecision ⟨rows, false⟩ = matrizDecision ⟨rows, true⟩ := by
  refine ⟨?_, rfl, rfl, rfl, rfl⟩
  simp [analisisCategorias]

end AnalisisVentas
